import Mathlib

/-!
Verification development for the ECUC parameter-definition tree generator
(`tree_gen.py`): a shallow embedding of its data model, ARXML walking,
multiplicity encoding, ASCII tree rendering and JSON projections, together
with theorems settling the specified properties.
-/

set_option autoImplicit false

namespace TreeGen

/-! Python string primitives

`str.split(sep)` (non-overlapping, left-to-right), substring containment
(`sep in s`) and `int(s)` are modelled over `List Char`. -/

/-- Model of Python `sub in s` (substring containment) over char lists. -/
def containsSeq (sub : List Char) : List Char → Bool
  | [] => decide (sub = [])
  | c :: rest => List.isPrefixOf sub (c :: rest) || containsSeq sub rest

/-- Model of Python `s.split(sep)` for a one-character separator;
`"".split(sep) = [""]`. -/
def pySplit1 (c : Char) : List Char → List (List Char)
  | [] => [[]]
  | a :: rest =>
    if a = c then [] :: pySplit1 c rest
    else
      match pySplit1 c rest with
      | [] => [[a]]
      | h :: t => (a :: h) :: t

/-- Model of Python `s.split(sep)` for a two-character separator: splits on
non-overlapping occurrences scanned left to right. -/
def pySplit2 (c1 c2 : Char) : List Char → List (List Char)
  | [] => [[]]
  | [a] => [[a]]
  | a :: b :: rest =>
    if a = c1 ∧ b = c2 then [] :: pySplit2 c1 c2 rest
    else
      match pySplit2 c1 c2 (b :: rest) with
      | [] => [[a]]
      | h :: t => (a :: h) :: t

/-- Digit-run tail of Python `int` parsing: consumes base-10 digits, allowing
a single underscore between two digits (as Python 3 does). -/
def pyDigitsGo : Nat → List Char → Option Nat
  | acc, [] => some acc
  | acc, c :: rest =>
    if c.isDigit then pyDigitsGo (10 * acc + (c.toNat - 48)) rest
    else if c = '_' then
      match rest with
      | [] => none
      | d :: rest2 =>
        if d.isDigit then pyDigitsGo (10 * acc + (d.toNat - 48)) rest2 else none
    else none

/-- Non-empty digit run starting Python `int` parsing (no leading underscore). -/
def pyDigits : List Char → Option Nat
  | [] => none
  | c :: rest => if c.isDigit then pyDigitsGo (c.toNat - 48) rest else none

/-- Model of Python `s.strip()` over char lists: drop whitespace from both
ends. -/
def pyStripL (s : List Char) : List Char :=
  ((s.dropWhile Char.isWhitespace).reverse.dropWhile Char.isWhitespace).reverse

/-- Model of Python `s.strip()`. -/
def pyStrip (s : String) : String :=
  String.mk (pyStripL s.data)

/-- Model of Python `int(s)`: strip surrounding whitespace, optional sign,
then a non-empty digit run; `none` models `ValueError`. -/
def pyIntL (s : List Char) : Option Int :=
  match pyStripL s with
  | '-' :: rest => (pyDigits rest).map (fun n => -(n : Int))
  | '+' :: rest => (pyDigits rest).map (fun n => (n : Int))
  | rest => (pyDigits rest).map (fun n => (n : Int))

/-! XML element model

`xml.etree.ElementTree` elements: a (namespace-qualified) tag, attributes,
the text before the first child, and the child elements in document order. -/

/-- An XML element as ElementTree presents it. -/
inductive XElem where
  | mk : String → List (String × String) → Option String → List XElem → XElem

mutual
/-- Boolean equality test on elements (for decidability of equality). -/
def beqX : XElem → XElem → Bool
  | .mk t1 a1 x1 c1, .mk t2 a2 x2 c2 =>
    decide (t1 = t2) && decide (a1 = a2) && decide (x1 = x2) && beqXList c1 c2

/-- Boolean equality test on element lists. -/
def beqXList : List XElem → List XElem → Bool
  | [], [] => true
  | _ :: _, [] => false
  | [], _ :: _ => false
  | a :: as, b :: bs => beqX a b && beqXList as bs
end

mutual
theorem beqX_iff : ∀ a b : XElem, beqX a b = true ↔ a = b
  | .mk t1 a1 x1 c1, .mk t2 a2 x2 c2 => by
    simp only [beqX, Bool.and_eq_true, decide_eq_true_eq, XElem.mk.injEq,
      beqXList_iff c1 c2]
    tauto

theorem beqXList_iff : ∀ as bs : List XElem, beqXList as bs = true ↔ as = bs
  | [], [] => by simp [beqXList]
  | _ :: _, [] => by simp [beqXList]
  | [], _ :: _ => by simp [beqXList]
  | a :: as, b :: bs => by
    simp only [beqXList, Bool.and_eq_true, beqX_iff a b, beqXList_iff as bs,
      List.cons.injEq]
end

instance : DecidableEq XElem := fun a b => decidable_of_iff _ (beqX_iff a b)

def XElem.tag : XElem → String
  | .mk t _ _ _ => t

def XElem.attrs : XElem → List (String × String)
  | .mk _ a _ _ => a

def XElem.text : XElem → Option String
  | .mk _ _ tx _ => tx

def XElem.children : XElem → List XElem
  | .mk _ _ _ cs => cs

/-- The AUTOSAR r4.0 namespace applied to a local tag name, in ElementTree's
Clark notation (the URI between braces before the local name). -/
def arNS (l : String) : String := "\x7bhttp://autosar.org/schema/r4.0\x7d" ++ l

/-- All child elements with the given tag, in document order
(ElementTree `findall('ar:TAG')`). -/
def childrenTagged (e : XElem) (t : String) : List XElem :=
  e.children.filter (fun c => c.tag == t)

/-- First child element with the given tag (ElementTree `find('ar:TAG')`). -/
def findChild (e : XElem) (t : String) : Option XElem :=
  e.children.find? (fun c => c.tag == t)

mutual
/-- All proper descendants of an element in document (preorder) order. -/
def descendants : XElem → List XElem
  | .mk _ _ _ cs => descendantsList cs

/-- Descendants-or-self of each element of a list, concatenated in order. -/
def descendantsList : List XElem → List XElem
  | [] => []
  | c :: cs => c :: (descendants c ++ descendantsList cs)
end

/-- First descendant with the given tag (ElementTree `find('.//ar:TAG')`). -/
def findDesc (e : XElem) (t : String) : Option XElem :=
  (descendants e).find? (fun c => c.tag == t)

/-- Attribute lookup on an element. -/
def attrOf (e : XElem) (k : String) : Option String :=
  (e.attrs.find? (fun kv => kv.1 == k)).map (fun kv => kv.2)

/-- The relative XPath shapes `_get_text` is invoked with: a single child tag,
or a child tag followed by a grandchild tag filtered by one attribute
(the `ar:DESC/ar:L-2[@L="EN"]` shape). -/
inductive XPathQ where
  | child (t : String)
  | childAttr (t1 t2 k v : String)

/-- First match of a relative XPath query, in document order
(ElementTree `find(path, ns)`). -/
def findPath (e : XElem) : XPathQ → Option XElem
  | .child t => findChild e t
  | .childAttr t1 t2 k v =>
    ((childrenTagged e t1).flatMap
      (fun d => (childrenTagged d t2).filter (fun c => attrOf c k == some v))).head?

/-! Data model (the dataclasses) -/

/-- `Parameter` dataclass. -/
structure Parameter where
  name : String
  param_type : String
  multiplicity : String
  description : String := ""
  default_value : String := ""
  min_value : String := ""
  max_value : String := ""
  literals : List String := []
deriving DecidableEq

/-- `Reference` dataclass. -/
structure Reference where
  name : String
  ref_type : String
  multiplicity : String
  description : String := ""
  destinations : List String := []
deriving DecidableEq

/-- `Container` dataclass (recursive through `sub_containers`). -/
inductive Container where
  | mk : String → String → String → String → List String →
         List Parameter → List Reference → List Container → Container

mutual
/-- Boolean equality test on containers (for decidability of equality). -/
def beqC : Container → Container → Bool
  | .mk n1 t1 m1 d1 cc1 ps1 rs1 ss1, .mk n2 t2 m2 d2 cc2 ps2 rs2 ss2 =>
    decide (n1 = n2) && decide (t1 = t2) && decide (m1 = m2) && decide (d1 = d2) &&
    decide (cc1 = cc2) && decide (ps1 = ps2) && decide (rs1 = rs2) && beqCList ss1 ss2

/-- Boolean equality test on container lists. -/
def beqCList : List Container → List Container → Bool
  | [], [] => true
  | _ :: _, [] => false
  | [], _ :: _ => false
  | a :: as, b :: bs => beqC a b && beqCList as bs
end

mutual
theorem beqC_iff : ∀ a b : Container, beqC a b = true ↔ a = b
  | .mk n1 t1 m1 d1 cc1 ps1 rs1 ss1, .mk n2 t2 m2 d2 cc2 ps2 rs2 ss2 => by
    simp only [beqC, Bool.and_eq_true, decide_eq_true_eq, Container.mk.injEq,
      beqCList_iff ss1 ss2]
    tauto

theorem beqCList_iff : ∀ as bs : List Container, beqCList as bs = true ↔ as = bs
  | [], [] => by simp [beqCList]
  | _ :: _, [] => by simp [beqCList]
  | [], _ :: _ => by simp [beqCList]
  | a :: as, b :: bs => by
    simp only [beqCList, Bool.and_eq_true, beqC_iff a b, beqCList_iff as bs,
      List.cons.injEq]
end

instance : DecidableEq Container := fun a b => decidable_of_iff _ (beqC_iff a b)

def Container.name : Container → String
  | .mk n _ _ _ _ _ _ _ => n

def Container.container_type : Container → String
  | .mk _ t _ _ _ _ _ _ => t

def Container.multiplicity : Container → String
  | .mk _ _ m _ _ _ _ _ => m

def Container.description : Container → String
  | .mk _ _ _ d _ _ _ _ => d

def Container.config_classes : Container → List String
  | .mk _ _ _ _ cc _ _ _ => cc

def Container.parameters : Container → List Parameter
  | .mk _ _ _ _ _ ps _ _ => ps

def Container.references : Container → List Reference
  | .mk _ _ _ _ _ _ rs _ => rs

def Container.sub_containers : Container → List Container
  | .mk _ _ _ _ _ _ _ ss => ss

/-- Reassignment of `container_type` after parsing (the caller context marks
sub-containers and choice containers). -/
def Container.withType : Container → String → Container
  | .mk n _ m d cc ps rs ss, ty => .mk n ty m d cc ps rs ss

/-- `Module` dataclass. -/
structure Module where
  name : String
  description : String := ""
  category : String := ""
  version : String := ""
  containers : List Container := []
deriving DecidableEq

/-! SimpleARXMLParser -/

/-- `_get_text`: text of the first match of a relative path, stripped;
the default when the parent is absent, no element matches, or the text is
absent or empty (Python truthiness: whitespace-only text is truthy and is
returned stripped, i.e. as the empty string, not as the default). -/
def get_text (parent : Option XElem) (q : XPathQ) (dflt : String) : String :=
  match parent with
  | none => dflt
  | some p =>
    match findPath p q with
    | some e =>
      match e.text with
      | some t => if t = "" then dflt else pyStrip t
      | none => dflt
    | none => dflt

/-- The display-string branch of `_get_multiplicity`, as a pure function of
the lower/upper texts (the spec's multiplicity encoder). -/
def encodeMultiplicity (lower upper : String) : String :=
  if upper = "*" then lower ++ "..*"
  else if lower = upper then lower
  else lower ++ ".." ++ upper

/-- `_get_multiplicity`: read the two bound texts (defaulting to "1") and
encode the display string. -/
def get_multiplicity (e : XElem) : String :=
  encodeMultiplicity
    (get_text (some e) (XPathQ.child (arNS "LOWER-MULTIPLICITY")) "1")
    (get_text (some e) (XPathQ.child (arNS "UPPER-MULTIPLICITY")) "1")

/-- Tag localisation in `_parse_parameter`/`_parse_reference`:
`tag.split(closing-brace)[-1] if closing-brace in tag else tag`. -/
def local_tag (t : String) : String :=
  if containsSeq ['\x7d'] t.data then
    String.mk ((pySplit1 '\x7d' t.data).getLastD [])
  else t

/-- The parameter tag → kind table of `_parse_parameter`. -/
def type_mapping : List (String × String) :=
  [("ECUC-BOOLEAN-PARAM-DEF", "BOOLEAN"),
   ("ECUC-INTEGER-PARAM-DEF", "INTEGER"),
   ("ECUC-FLOAT-PARAM-DEF", "FLOAT"),
   ("ECUC-STRING-PARAM-DEF", "STRING"),
   ("ECUC-ENUMERATION-PARAM-DEF", "ENUMERATION"),
   ("ECUC-FUNCTION-NAME-DEF", "FUNCTION_NAME")]

/-- The reference tag → kind table of `_parse_reference`. -/
def ref_type_mapping : List (String × String) :=
  [("ECUC-REFERENCE-DEF", "REFERENCE"),
   ("ECUC-CHOICE-REFERENCE-DEF", "CHOICE_REFERENCE"),
   ("ECUC-FOREIGN-REFERENCE-DEF", "FOREIGN_REFERENCE")]

/-- `_parse_parameter`. -/
def parse_parameter (e : XElem) : Parameter :=
  let pt := local_tag e.tag
  let lits :=
    match findChild e (arNS "LITERALS") with
    | some le =>
      ((childrenTagged le (arNS "ECUC-ENUMERATION-LITERAL-DEF")).map
        (fun lit => get_text (some lit) (XPathQ.child (arNS "SHORT-NAME")) "")).filter
        (fun s => s ≠ "")
    | none => []
  { name := get_text (some e) (XPathQ.child (arNS "SHORT-NAME")) ""
  , param_type := (type_mapping.lookup pt).getD "UNKNOWN"
  , multiplicity := get_multiplicity e
  , description := get_text (some e) (XPathQ.childAttr (arNS "DESC") (arNS "L-2") "L" "EN") ""
  , default_value := get_text (some e) (XPathQ.child (arNS "DEFAULT-VALUE")) ""
  , min_value := get_text (some e) (XPathQ.child (arNS "MIN")) ""
  , max_value := get_text (some e) (XPathQ.child (arNS "MAX")) ""
  , literals := lits }

/-- `_parse_reference`. -/
def parse_reference (e : XElem) : Reference :=
  let rt := local_tag e.tag
  let dests :=
    match findChild e (arNS "DESTINATION-REF") with
    | some de =>
      match de.text with
      | some t => if t = "" then [] else [t]
      | none => []
    | none => []
  { name := get_text (some e) (XPathQ.child (arNS "SHORT-NAME")) ""
  , ref_type := (ref_type_mapping.lookup rt).getD "REFERENCE"
  , multiplicity := get_multiplicity e
  , description := get_text (some e) (XPathQ.childAttr (arNS "DESC") (arNS "L-2") "L" "EN") ""
  , destinations := dests }

theorem findChild_mem {e : XElem} {t : String} {x : XElem}
    (h : findChild e t = some x) : x ∈ e.children :=
  List.mem_of_find?_eq_some h

mutual
/-- `_parse_container`: name, kind tag "CONTAINER" (reassigned by the caller
for nested and choice children), multiplicity, description, then parameters,
references, sub-containers (marked SUB_CONTAINER) and choices (marked
CHOICE_CONTAINER), the latter two concatenated into one child sequence. -/
def parse_container : XElem → Container
  | .mk t a x cs =>
    Container.mk
      (get_text (some (XElem.mk t a x cs)) (XPathQ.child (arNS "SHORT-NAME")) "")
      "CONTAINER"
      (get_multiplicity (XElem.mk t a x cs))
      (get_text (some (XElem.mk t a x cs))
        (XPathQ.childAttr (arNS "DESC") (arNS "L-2") "L" "EN") "")
      []
      (match findChild (XElem.mk t a x cs) (arNS "PARAMETERS") with
        | some pe => pe.children.map parse_parameter
        | none => [])
      (match findChild (XElem.mk t a x cs) (arNS "REFERENCES") with
        | some re => re.children.map parse_reference
        | none => [])
      (parse_group (arNS "SUB-CONTAINERS") "SUB_CONTAINER" cs ++
        parse_group (arNS "CHOICES") "CHOICE_CONTAINER" cs)

/-- The find-then-iterate shape of the sub-container and choice loops of
`_parse_container`: locate the first grouping child with the given tag and
parse each of its children, reassigned to the given kind (the recursion is
written over the child list so that it is structural; the lemma
`parse_group_eq_find` below restates it through `findChild`). -/
def parse_group : String → String → List XElem → List Container
  | _, _, [] => []
  | tagName, kind, XElem.mk t _ _ gcs :: rest =>
    if t == tagName then parse_group_list kind gcs
    else parse_group tagName kind rest

/-- Parse each child of a located grouping element, reassigning its kind. -/
def parse_group_list : String → List XElem → List Container
  | _, [] => []
  | kind, c :: cs => (parse_container c).withType kind :: parse_group_list kind cs
end

/-- `parse_group` is the find-first-grouping-then-iterate of the source. -/
theorem parse_group_eq_find (tagName kind : String) :
    ∀ cs : List XElem, parse_group tagName kind cs =
      match cs.find? (fun c => c.tag == tagName) with
      | some g => parse_group_list kind g.children
      | none => []
  | [] => rfl
  | XElem.mk t a x gcs :: rest => by
    rw [parse_group]
    by_cases h : (t == tagName) = true
    · rw [if_pos h, List.find?_cons_of_pos _ (by simpa [XElem.tag] using h)]
      rfl
    · rw [if_neg h, List.find?_cons_of_neg _ (by simpa [XElem.tag] using h),
        parse_group_eq_find tagName kind rest]

/-- Root location in `parse_arxml_file`: first a module definition anywhere in
the document; failing that, a destination-URI definition and, inside it, a
parameter-configuration container definition. -/
def find_root (root : XElem) : Option XElem :=
  match findDesc root (arNS "ECUC-MODULE-DEF") with
  | some md => some md
  | none =>
    match findDesc root (arNS "ECUC-DESTINATION-URI-DEF") with
    | some dd => findDesc dd (arNS "ECUC-PARAM-CONF-CONTAINER-DEF")
    | none => none

/-- Module construction in `parse_arxml_file`: scalar fields, then recognized
container-definition children of the first SUB-CONTAINERS grouping followed
by those of the first CONTAINERS grouping. -/
def build_module (md : XElem) : Module :=
  let subs :=
    match findChild md (arNS "SUB-CONTAINERS") with
    | some se => (childrenTagged se (arNS "ECUC-PARAM-CONF-CONTAINER-DEF")).map parse_container
    | none => []
  let dirs :=
    match findChild md (arNS "CONTAINERS") with
    | some ce => (childrenTagged ce (arNS "ECUC-PARAM-CONF-CONTAINER-DEF")).map parse_container
    | none => []
  { name := get_text (some md) (XPathQ.child (arNS "SHORT-NAME")) ""
  , description := get_text (some md) (XPathQ.childAttr (arNS "DESC") (arNS "L-2") "L" "EN") ""
  , category := get_text (some md) (XPathQ.child (arNS "CATEGORY")) ""
  , version := get_text (some md) (XPathQ.child (arNS "VERSION")) ""
  , containers := subs ++ dirs }

/-- The message of the root-not-found `ValueError`. -/
def rootNotFoundMsg : String :=
  "No ECUC-MODULE-DEF or ECUC-PARAM-CONF-CONTAINER-DEF found in the file"

/-- The wrapper prepended to every failure message by the catch-all handler. -/
def errWrap (msg : String) : String := "Error parsing ARXML file: " ++ msg

/-- `parse_arxml_file`: the input is the result of `ET.parse` (an element tree,
or the XML parse-error message for a malformed document); failures are the
re-raised, wrapped messages. -/
def parse_arxml_file (doc : Except String XElem) (file_path : String) :
    Except String Module :=
  match doc with
  | .error msg => .error (errWrap msg)
  | .ok root =>
    match find_root root with
    | none => .error (errWrap rootNotFoundMsg)
    | some md => .ok (build_module md)

/-! JSON values

Python dicts are modelled as key-value lists in insertion order; `dinsert`
models `d[k] = v` (overwrite keeps the original position, a fresh key is
appended). -/

/-- A JSON value. -/
inductive JValue where
  | str : String → JValue
  | int : Int → JValue
  | arr : List JValue → JValue
  | obj : List (String × JValue) → JValue

/-- Top-level keys of a JSON object (observation used to separate values). -/
def JValue.topKeys : JValue → List String
  | .obj kvs => kvs.map Prod.fst
  | _ => []

/-- Python `d[k] = v` on an insertion-ordered dict. -/
def dinsert (kvs : List (String × JValue)) (k : String) (v : JValue) :
    List (String × JValue) :=
  if kvs.any (fun kv => kv.1 == k) then
    kvs.map (fun kv => if kv.1 == k then (k, v) else kv)
  else kvs ++ [(k, v)]

/-! First (shadowed) JSONGenerator: the descriptive projection

The source defines `JSONGenerator` twice; this is the first definition, which
the second shadows, so no entry point reaches it. -/

/-- `_extract_lower_multiplicity` (of the shadowed descriptive generator). -/
def extract_lower_multiplicity (m : String) : Int :=
  if m = "" then 1
  else
    match pyIntL ((pySplit1 '.' m.data).headD []) with
    | some n => n
    | none => 1

/-- `_extract_upper_multiplicity` (of the shadowed descriptive generator). -/
def extract_upper_multiplicity (m : String) : Int :=
  if m = "" then 1
  else if containsSeq ['.', '.', '*'] m.data then -1
  else
    let parts := pySplit2 '.' '.' m.data
    if parts.length > 1 then
      match pyIntL (parts.getD 1 []) with
      | some n => n
      | none => 1
    else
      match pyIntL ((pySplit1 '.' m.data).headD []) with
      | some n => n
      | none => 1

namespace JSONGeneratorDescriptive

/-- `_parameter_to_dict` of the shadowed descriptive generator. -/
def parameter_to_dict (p : Parameter) : JValue :=
  .obj [("name", .str p.name), ("type", .str p.param_type),
        ("multiplicity", .str p.multiplicity), ("description", .str p.description),
        ("default", .str p.default_value), ("min", .str p.min_value),
        ("max", .str p.max_value), ("literals", .arr (p.literals.map JValue.str))]

/-- `_reference_to_dict` of the shadowed descriptive generator. -/
def reference_to_dict (r : Reference) : JValue :=
  .obj [("name", .str r.name), ("type", .str r.ref_type),
        ("multiplicity", .str r.multiplicity), ("description", .str r.description),
        ("destinations", .arr (r.destinations.map JValue.str))]

mutual
/-- `_container_to_dict` of the shadowed descriptive generator. -/
def container_to_dict : Container → JValue
  | .mk name ty mult desc _ params refs subs =>
    .obj [("name", .str name), ("type", .str ty), ("multiplicity", .str mult),
          ("description", .str desc),
          ("lowerMultiplicity", .int (extract_lower_multiplicity mult)),
          ("upperMultiplicity", .int (extract_upper_multiplicity mult)),
          ("parameters", .arr (params.map parameter_to_dict)),
          ("references", .arr (refs.map reference_to_dict)),
          ("sub_containers", .arr (container_to_dict_list subs))]

/-- `_container_to_dict` mapped over a child sequence. -/
def container_to_dict_list : List Container → List JValue
  | [] => []
  | c :: cs => container_to_dict c :: container_to_dict_list cs
end

/-- `generate_json` of the shadowed descriptive generator. -/
def generate_json (m : Module) : JValue :=
  .obj [("name", .str m.name), ("type", .str "MODULE"),
        ("description", .str m.description), ("category", .str m.category),
        ("version", .str m.version),
        ("containers", .arr (m.containers.map container_to_dict))]

end JSONGeneratorDescriptive

/-! Second (live) JSONGenerator: the compact projection -/

namespace JSONGenerator

/-- The conditionally assembled entries of `_parameter_to_json`, in
insertion order (all keys are distinct, so plain appends model the dict). -/
def parameter_entries (p : Parameter) : List (String × JValue) :=
  (if p.param_type ≠ "" then [("type", JValue.str p.param_type)] else []) ++
  (if p.multiplicity ≠ "" ∧ p.multiplicity ≠ "1" then
    [("multiplicity", JValue.str p.multiplicity)] else []) ++
  (if p.literals ≠ [] then [("options", JValue.arr (p.literals.map JValue.str))] else []) ++
  (if p.min_value ≠ "" then [("minValue", JValue.str p.min_value)] else []) ++
  (if p.max_value ≠ "" then [("maxValue", JValue.str p.max_value)] else []) ++
  (if p.default_value ≠ "" then [("default", JValue.str p.default_value)] else []) ++
  (if p.description ≠ "" then [("description", JValue.str p.description)] else [])

/-- `_parameter_to_json` of the live compact generator (returns the empty
object when no attribute survives the emptiness filters). -/
def parameter_to_json (p : Parameter) : JValue :=
  .obj (parameter_entries p)

mutual
/-- `_container_to_json` of the live compact generator: parameters, then
sub-containers, merged by name into one insertion-ordered dict. -/
def container_to_json : Container → JValue
  | .mk _ _ _ _ _ params _ subs =>
    .obj (container_entries subs
      (params.foldl (fun d p => dinsert d p.name (parameter_to_json p)) []))

/-- The sub-container insertion loop of `_container_to_json`. -/
def container_entries : List Container → List (String × JValue) →
    List (String × JValue)
  | [], d => d
  | s :: ss, d => container_entries ss (dinsert d (Container.name s) (container_to_json s))
end

/-- `generate_json` of the live compact generator. -/
def generate_json (m : Module) : JValue :=
  .obj [(m.name,
    .obj (m.containers.foldl (fun d c => dinsert d c.name (container_to_json c)) []))]

end JSONGenerator

/-- `convert_paramdef_to_json`: parse then project with the (live, compact)
`JSONGenerator`. -/
def convert_paramdef_to_json (doc : Except String XElem) (file_path : String) :
    Except String JValue :=
  match parse_arxml_file doc file_path with
  | .ok m => .ok (JSONGenerator.generate_json m)
  | .error e => .error e

/-! SimpleTreeGenerator

The glyph strings below reproduce character-for-character the (mojibake)
literals of the source file. -/

namespace SimpleTreeGen

/-- Terminal branch marker of child lines. -/
def glyphLast : String := "â””â”€â”€ "

/-- Continuing branch marker of child lines. -/
def glyphMid : String := "â”œâ”€â”€ "

/-- Marker of description/values lines. -/
def glyphDesc : String := "â””â”€ "

/-- Marker of config/category/version and reference-description lines. -/
def glyphCfg : String := "â”œâ”€ "

/-- Vertical continuation used in non-terminal child prefixes. -/
def glyphBar : String := "â”‚   "

/-- Marker of parameter lines. -/
def glyphParam : String := "ðŸ“Š "

/-- Marker of reference lines. -/
def glyphRef : String := "ðŸ”— "

/-- Short terminal marker of destination lines (no trailing blank). -/
def glyphLastShort : String := "â””â”€"

/-- Short continuing marker of destination lines (no trailing blank). -/
def glyphMidShort : String := "â”œâ”€"

/-- Arrow of destination lines. -/
def glyphArrow : String := " â†’ "

/-- `_add_parameter_to_tree`: the parameter's info line, and in detailed mode
also description and (truncated) literal lines. -/
def add_parameter_lines (p : Parameter) (pfx : String) (is_last det : Bool) :
    List String :=
  let cpfx := if is_last then glyphLast else glyphMid
  let info0 := p.name ++ " [" ++ p.param_type ++ "] " ++ p.multiplicity
  let info1 := if det && p.default_value ≠ "" then info0 ++ " = " ++ p.default_value else info0
  let info2 :=
    if det && (p.min_value ≠ "" || p.max_value ≠ "") then
      info1 ++ " (" ++ p.min_value ++ ".." ++ p.max_value ++ ")"
    else info1
  let head := pfx ++ cpfx ++ glyphParam ++ info2
  if det then
    let npfx := pfx ++ (if is_last then "    " else glyphBar)
    let descLines := if p.description ≠ "" then [npfx ++ glyphDesc ++ p.description] else []
    let valuesText0 := String.intercalate ", " (p.literals.take 5)
    let valuesText := if p.literals.length > 5 then valuesText0 ++ "..." else valuesText0
    let litLines := if p.literals ≠ [] then [npfx ++ glyphDesc ++ "Values: " ++ valuesText] else []
    head :: (descLines ++ litLines)
  else [head]

/-- One destination line of `_add_reference_to_tree`. -/
def dest_line (npfx : String) (is_last_dest : Bool) (dest : String) : String :=
  let dest_short :=
    if containsSeq ['/'] dest.data then String.mk ((pySplit1 '/' dest.data).getLastD [])
    else dest
  npfx ++ (if is_last_dest then glyphLastShort else glyphMidShort) ++ glyphArrow ++ dest_short

/-- `_add_reference_to_tree`: the reference's info line, and in detailed mode
also description and destination lines (up to 3, then a "more" line). -/
def add_reference_lines (r : Reference) (pfx : String) (is_last det : Bool) :
    List String :=
  let cpfx := if is_last then glyphLast else glyphMid
  let head := pfx ++ cpfx ++ glyphRef ++ r.name ++ " [" ++ r.ref_type ++ "] " ++ r.multiplicity
  if det then
    let npfx := pfx ++ (if is_last then "    " else glyphBar)
    let descLines := if r.description ≠ "" then [npfx ++ glyphCfg ++ r.description] else []
    let shown := r.destinations.take 3
    let destLines :=
      if r.destinations ≠ [] then
        (shown.enum.map (fun id2 =>
          dest_line npfx (id2.1 == shown.length - 1 && r.destinations.length ≤ 3) id2.2)) ++
        (if r.destinations.length > 3 then
          [npfx ++ glyphDesc ++ "... and " ++ toString (r.destinations.length - 3) ++ " more"]
         else [])
      else []
    head :: (descLines ++ destLines)
  else [head]

mutual
/-- `_add_container_to_tree`: the container's info line, optional description
and config lines, then parameters, references and sub-containers, the
terminal-marker flag tracking one running index over the combined children. -/
def add_container_lines : Container → String → Bool → Bool → List String
  | .mk name ty mult desc ccs params refs subs, pfx, is_last, det =>
    let cpfx := if is_last then glyphLast else glyphMid
    let head := pfx ++ cpfx ++ name ++ " [" ++ ty ++ "] " ++ mult
    let npfx := pfx ++ (if is_last then "    " else glyphBar)
    let descLines := if desc ≠ "" then [npfx ++ glyphDesc ++ desc] else []
    let cfgLines :=
      if det && ccs ≠ [] then [npfx ++ glyphCfg ++ "Config: " ++ String.intercalate ", " ccs]
      else []
    let total := params.length + refs.length + subs.length
    let pLines := (params.enum.map (fun ip =>
      add_parameter_lines ip.2 npfx (ip.1 + 1 == total) det)).flatten
    let rLines := (refs.enum.map (fun ir =>
      add_reference_lines ir.2 npfx (params.length + ir.1 + 1 == total) det)).flatten
    let sLines := add_container_list subs npfx det (params.length + refs.length) total
    head :: (descLines ++ cfgLines ++ pLines ++ rLines ++ sLines)

/-- The sub-container loop of `_add_container_to_tree`, threading the running
index against the combined child count. -/
def add_container_list : List Container → String → Bool → Nat → Nat → List String
  | [], _, _, _, _ => []
  | c :: cs, npfx, det, idx, total =>
    add_container_lines c npfx (idx + 1 == total) det ++
      add_container_list cs npfx det (idx + 1) total
end

/-- The lines of `generate_simple_tree` (compact form). -/
def simple_lines (m : Module) : List String :=
  (m.name ++ " [MODULE]") :: (glyphDesc ++ m.description) ::
    (m.containers.enum.map (fun ic =>
      add_container_lines ic.2 "" (ic.1 == m.containers.length - 1) false)).flatten

/-- `generate_simple_tree`. -/
def generate_simple_tree (m : Module) : String :=
  String.intercalate "\n" (simple_lines m)

/-- The lines of `generate_detailed_tree` (detailed form). -/
def detailed_lines (m : Module) : List String :=
  (m.name ++ " [MODULE]") :: (glyphDesc ++ m.description) ::
  ("   " ++ glyphCfg ++ "Category: " ++ m.category) ::
  ("   " ++ glyphCfg ++ "Version: " ++ m.version) ::
    (m.containers.enum.map (fun ic =>
      add_container_lines ic.2 "    " (ic.1 == m.containers.length - 1) true)).flatten

/-- `generate_detailed_tree`. -/
def generate_detailed_tree (m : Module) : String :=
  String.intercalate "\n" (detailed_lines m)

end SimpleTreeGen

/-! Concrete documents used as inputs of witnesses and counterexamples -/

/-- Leaf element carrying only text. -/
def elemT (tag txt : String) : XElem := XElem.mk tag [] (some txt) []

/-- Element carrying only children. -/
def elemC (tag : String) (cs : List XElem) : XElem := XElem.mk tag [] none cs

/-- The module-definition element of the end-to-end scenario document. -/
def docComModuleDef : XElem :=
  elemC (arNS "ECUC-MODULE-DEF") [
    elemT (arNS "SHORT-NAME") "Com",
    elemC (arNS "CONTAINERS") [
      elemC (arNS "ECUC-PARAM-CONF-CONTAINER-DEF") [
        elemT (arNS "SHORT-NAME") "ComConfig",
        elemC (arNS "PARAMETERS") [
          elemC (arNS "ECUC-BOOLEAN-PARAM-DEF") [
            elemT (arNS "SHORT-NAME") "ComMainFunctionPeriod",
            elemT (arNS "LOWER-MULTIPLICITY") "1",
            elemT (arNS "UPPER-MULTIPLICITY") "1",
            elemT (arNS "DEFAULT-VALUE") "0.01"]]]]]

/-- The end-to-end scenario document: module `Com`, container `ComConfig`,
boolean parameter `ComMainFunctionPeriod` with multiplicity "1" and
default "0.01". -/
def docCom : XElem :=
  elemC (arNS "AUTOSAR") [docComModuleDef]

/-- A well-formed document with no recognized root element. -/
def docNoRoot : XElem :=
  elemC (arNS "AUTOSAR") [elemC (arNS "AR-PACKAGES") []]

/-! Helper lemmas on the Python string primitives -/

theorem isPrefixOf_cons_neq {a c0 : Char} {s rest : List Char} (h : c0 ≠ a) :
    List.isPrefixOf (c0 :: s) (a :: rest) = false := by
  simp [List.isPrefixOf, h]

theorem isPrefixOf_not_head {c0 : Char} {s U : List Char} (h : c0 ∉ U) :
    List.isPrefixOf (c0 :: s) U = false := by
  cases U with
  | nil => rfl
  | cons a rest =>
    have ha : c0 ≠ a := fun he => h (he ▸ List.mem_cons_self a rest)
    exact isPrefixOf_cons_neq ha

theorem containsSeq_append_left {c0 : Char} {s : List Char} :
    ∀ (L m : List Char), c0 ∉ L →
      containsSeq (c0 :: s) (L ++ m) = containsSeq (c0 :: s) m
  | [], _, _ => rfl
  | a :: L, m, h => by
    have ha : c0 ≠ a := fun he => h (he ▸ List.mem_cons_self a L)
    have hL : c0 ∉ L := fun hm => h (List.mem_cons_of_mem a hm)
    simp only [List.cons_append, containsSeq, isPrefixOf_cons_neq ha, Bool.false_or]
    exact containsSeq_append_left L m hL

theorem containsSeq_nil_false {c0 : Char} {s : List Char} :
    containsSeq (c0 :: s) [] = false := by
  simp [containsSeq]

theorem containsSeq_not_mem {c0 : Char} {s U : List Char} (h : c0 ∉ U) :
    containsSeq (c0 :: s) U = false := by
  have h1 := @containsSeq_append_left c0 s U [] h
  rw [List.append_nil] at h1
  rw [h1, containsSeq_nil_false]

theorem pySplit1_no_sep {c : Char} :
    ∀ (L : List Char), c ∉ L → pySplit1 c L = [L]
  | [], _ => rfl
  | a :: L, h => by
    have ha : ¬(a = c) := fun he => h (List.mem_cons.mpr (Or.inl he.symm))
    have hL : c ∉ L := fun hm => h (List.mem_cons_of_mem a hm)
    rw [pySplit1, if_neg ha, pySplit1_no_sep L hL]

theorem pySplit1_sep_mid {c : Char} :
    ∀ (L r : List Char), c ∉ L → pySplit1 c (L ++ c :: r) = L :: pySplit1 c r
  | [], r, _ => by rw [List.nil_append, pySplit1, if_pos rfl]
  | a :: L, r, h => by
    have ha : ¬(a = c) := fun he => h (List.mem_cons.mpr (Or.inl he.symm))
    have hL : c ∉ L := fun hm => h (List.mem_cons_of_mem a hm)
    rw [List.cons_append, pySplit1, if_neg ha, pySplit1_sep_mid L r hL]

theorem pySplit2_no_sep {c1 c2 : Char} :
    ∀ (L : List Char), c1 ∉ L → pySplit2 c1 c2 L = [L]
  | [], _ => rfl
  | [_], _ => rfl
  | a :: b :: L, h => by
    have ha : ¬(a = c1 ∧ b = c2) :=
      fun hab => h (List.mem_cons.mpr (Or.inl hab.1.symm))
    have hbl : c1 ∉ b :: L := fun hm => h (List.mem_cons_of_mem a hm)
    rw [pySplit2, if_neg ha, pySplit2_no_sep (b :: L) hbl]

theorem pySplit2_sep_mid {c1 c2 : Char} :
    ∀ (L r : List Char), c1 ∉ L →
      pySplit2 c1 c2 (L ++ c1 :: c2 :: r) = L :: pySplit2 c1 c2 r
  | [], r, _ => by rw [List.nil_append, pySplit2, if_pos ⟨rfl, rfl⟩]
  | [a], r, h => by
    have ha : ¬(a = c1 ∧ c1 = c2) :=
      fun hab => h (List.mem_cons.mpr (Or.inl hab.1.symm))
    have hbase : pySplit2 c1 c2 (c1 :: c2 :: r) = [] :: pySplit2 c1 c2 r := by
      rw [pySplit2, if_pos ⟨rfl, rfl⟩]
    rw [List.cons_append, List.nil_append, pySplit2, if_neg ha, hbase]
  | a :: b :: L, r, h => by
    have ha : ¬(a = c1 ∧ b = c2) :=
      fun hab => h (List.mem_cons.mpr (Or.inl hab.1.symm))
    have hbl : c1 ∉ b :: L := fun hm => h (List.mem_cons_of_mem a hm)
    rw [List.cons_append, List.cons_append, pySplit2, if_neg ha,
      ← List.cons_append, pySplit2_sep_mid (b :: L) r hbl]

theorem mem_fst_ite {c : Prop} [Decidable c] {k k' : String} {v : JValue} :
    (k ∈ ((if c then [(k', v)] else []).map Prod.fst)) ↔ (c ∧ k = k') := by
  split_ifs with h <;> simp [h]

theorem lookup_eq_none_of_not_mem {a : String} :
    ∀ l : List (String × String), a ∉ l.map Prod.fst → List.lookup a l = none
  | [], _ => rfl
  | (k, v) :: rest, h => by
    simp only [List.map_cons, List.mem_cons, not_or] at h
    have ha : (a == k) = false := beq_eq_false_iff_ne.mpr h.1
    rw [List.lookup, ha, lookup_eq_none_of_not_mem rest h.2]

theorem lookup_getD_mem {S : List String} {d : String} (hd : d ∈ S) :
    ∀ (l : List (String × String)), (∀ kv ∈ l, kv.2 ∈ S) →
      ∀ t : String, ((l.lookup t).getD d) ∈ S
  | [], _, _ => hd
  | (k, v) :: rest, h, t => by
    rw [List.lookup]
    by_cases hk : (t == k) = true
    · rw [hk]
      exact h (k, v) (List.mem_cons_self _ _)
    · rw [Bool.not_eq_true] at hk
      rw [hk]
      exact lookup_getD_mem hd rest (fun kv hkv => h kv (List.mem_cons_of_mem _ hkv)) t

/-! Claims -/

/-- C1 (counterexample): the lower text "2.5" does not parse as a Python
integer and the upper text is not "*", yet the derived lower bound of the
display string `encode("2.5","2.5") = "2.5"` is 2, not the claimed
fallback 1 (the extraction splits on single dots first). -/
theorem C1_counterexample :
    pyIntL (String.data "2.5") = none ∧ ("2.5" : String) ≠ "*" ∧
    encodeMultiplicity "2.5" "2.5" = "2.5" ∧
    extract_lower_multiplicity (encodeMultiplicity "2.5" "2.5") = 2 := by
  refine ⟨by decide, by decide, rfl, by decide⟩

/-- C1 (amended): the three concrete round-trips hold as claimed, and the
fallback to lower=1, upper=1 holds for every pair of texts that do not parse
as integers, provided additionally that neither text contains a dot and the
upper text contains no star (otherwise the dot-splitting extraction can
recover a parsable fragment, as the counterexample shows). -/
theorem C1_multiplicity_round_trip :
    (encodeMultiplicity "1" "1" = "1" ∧
      extract_lower_multiplicity "1" = 1 ∧ extract_upper_multiplicity "1" = 1) ∧
    (encodeMultiplicity "0" "*" = "0..*" ∧
      extract_lower_multiplicity "0..*" = 0 ∧ extract_upper_multiplicity "0..*" = -1) ∧
    (encodeMultiplicity "2" "5" = "2..5" ∧
      extract_lower_multiplicity "2..5" = 2 ∧ extract_upper_multiplicity "2..5" = 5) ∧
    (∀ L U : String, pyIntL L.data = none → pyIntL U.data = none → U ≠ "*" →
      ('.' : Char) ∉ L.data → ('.' : Char) ∉ U.data → ('*' : Char) ∉ U.data →
      extract_lower_multiplicity (encodeMultiplicity L U) = 1 ∧
      extract_upper_multiplicity (encodeMultiplicity L U) = 1) := by
  refine ⟨⟨rfl, by decide, by decide⟩, ⟨rfl, by decide, by decide⟩,
    ⟨rfl, by decide, by decide⟩, ?_⟩
  intro L U hL hU hUstar hdL hdU hsU
  rw [encodeMultiplicity, if_neg hUstar]
  by_cases hLU : L = U
  · rw [if_pos hLU]
    by_cases hLe : L = ""
    · subst hLe
      exact ⟨by decide, by decide⟩
    · have h1 : pySplit1 '.' L.data = [L.data] := pySplit1_no_sep L.data hdL
      have h2 : pySplit2 '.' '.' L.data = [L.data] := pySplit2_no_sep L.data hdL
      have h3 : containsSeq ['.', '.', '*'] L.data = false := containsSeq_not_mem hdL
      constructor
      · simp [extract_lower_multiplicity, hLe, h1, hL]
      · simp [extract_upper_multiplicity, hLe, h3, h2, h1, hL]
  · rw [if_neg hLU]
    have hdata : (L ++ ".." ++ U).data = L.data ++ '.' :: '.' :: U.data := by
      rw [String.data_append, String.data_append]
      simp
    have hne : L ++ ".." ++ U ≠ "" := by
      rw [Ne, String.ext_iff, hdata]
      simp
    have hsplit1 : pySplit1 '.' (L.data ++ '.' :: '.' :: U.data) =
        L.data :: pySplit1 '.' ('.' :: U.data) :=
      pySplit1_sep_mid L.data ('.' :: U.data) hdL
    have hsplit2 : pySplit2 '.' '.' (L.data ++ '.' :: '.' :: U.data) = [L.data, U.data] := by
      rw [pySplit2_sep_mid L.data U.data hdL, pySplit2_no_sep U.data hdU]
    have hcontains : containsSeq ['.', '.', '*'] (L.data ++ '.' :: '.' :: U.data) = false := by
      have hp2 : List.isPrefixOf ['.', '*'] U.data = false := isPrefixOf_not_head hdU
      have hp3 : List.isPrefixOf ['*'] U.data = false := isPrefixOf_not_head hsU
      have hc4 : containsSeq ['.', '.', '*'] U.data = false := containsSeq_not_mem hdU
      rw [containsSeq_append_left _ _ hdL]
      simp [containsSeq, List.isPrefixOf, hp2, hp3, hc4]
    constructor
    · simp [extract_lower_multiplicity, hne, hsplit1, hL]
    · simp [extract_upper_multiplicity, hne, hcontains, hsplit2, hU]

/-- C1 (witness): the amended fallback applied to the concrete unparsable
pair ("a", "b"). -/
theorem C1_witness :
    extract_lower_multiplicity (encodeMultiplicity "a" "b") = 1 ∧
    extract_upper_multiplicity (encodeMultiplicity "a" "b") = 1 :=
  C1_multiplicity_round_trip.2.2.2 "a" "b" (by decide) (by decide) (by decide)
    (by decide) (by decide) (by decide)

/-- C2 (counterexample): for a well-formed document with no recognized root
and input file path "test.arxml", parsing fails with the fixed
root-not-found message, and that message does not contain the file path,
contradicting the claim that the condition carries the input file path. -/
theorem C2_counterexample :
    parse_arxml_file (.ok docNoRoot) "test.arxml" = .error (errWrap rootNotFoundMsg) ∧
    containsSeq ("test.arxml".data) ((errWrap rootNotFoundMsg).data) = false :=
  ⟨rfl, by decide⟩

/-- C2 (amended): a malformed document fails before any root search with the
wrapped XML error; a well-formed document with no recognized root fails with
a fixed diagnostic message naming the expected root elements (the message
does not carry the input file path); in both fatal cases no partial Module
is returned (a Module is returned exactly when a root is found). -/
theorem C2_error_conditions :
    (∀ (msg path : String),
      parse_arxml_file (.error msg) path = .error (errWrap msg)) ∧
    (∀ (root : XElem) (path : String), find_root root = none →
      parse_arxml_file (.ok root) path = .error (errWrap rootNotFoundMsg)) ∧
    (∀ (doc : Except String XElem) (path : String) (m : Module),
      parse_arxml_file doc path = .ok m →
      ∃ root md, doc = .ok root ∧ find_root root = some md ∧ m = build_module md) := by
  refine ⟨fun msg path => rfl, ?_, ?_⟩
  · intro root path h
    rw [parse_arxml_file, h]
  · intro doc path m h
    match doc with
    | .error msg => exact absurd h (by simp [parse_arxml_file])
    | .ok root =>
      match hr : find_root root with
      | none => rw [parse_arxml_file, hr] at h; exact absurd h (by simp)
      | some md =>
        rw [parse_arxml_file, hr] at h
        exact ⟨root, md, rfl, hr, (Except.ok.inj h).symm⟩

/-- C2 (witness): the root-not-found branch applied to the concrete rootless
document. -/
theorem C2_witness :
    parse_arxml_file (.ok docNoRoot) "f.arxml" = .error (errWrap rootNotFoundMsg) :=
  C2_error_conditions.2.1 docNoRoot "f.arxml" rfl

/-- C6: the end-to-end scenario document (module `Com` with one container
`ComConfig` holding one boolean parameter `ComMainFunctionPeriod` with
multiplicity "1" and default "0.01") converts to exactly the claimed
compact JSON object. -/
theorem C6_end_to_end :
    convert_paramdef_to_json (.ok docCom) "com.arxml" =
      .ok (JValue.obj [("Com", .obj [("ComConfig", .obj [("ComMainFunctionPeriod",
        .obj [("type", .str "BOOLEAN"), ("default", .str "0.01")])])])]) := rfl

/-- C7: a Parameter whose type, literals, min, max, default and description
are all empty and whose multiplicity is empty or the default "1" projects to
the empty compact object, and conversely each field's key appears in the
compact projection exactly when the field is non-empty (multiplicity exactly
when non-empty and different from "1"). -/
theorem C7_emptiness_rule :
    (∀ p : Parameter, p.param_type = "" → (p.multiplicity = "" ∨ p.multiplicity = "1") →
      p.literals = [] → p.min_value = "" → p.max_value = "" → p.default_value = "" →
      p.description = "" → JSONGenerator.parameter_to_json p = JValue.obj []) ∧
    (∀ p : Parameter,
      ("type" ∈ (JSONGenerator.parameter_entries p).map Prod.fst ↔ p.param_type ≠ "") ∧
      ("multiplicity" ∈ (JSONGenerator.parameter_entries p).map Prod.fst ↔
        (p.multiplicity ≠ "" ∧ p.multiplicity ≠ "1")) ∧
      ("options" ∈ (JSONGenerator.parameter_entries p).map Prod.fst ↔ p.literals ≠ []) ∧
      ("minValue" ∈ (JSONGenerator.parameter_entries p).map Prod.fst ↔ p.min_value ≠ "") ∧
      ("maxValue" ∈ (JSONGenerator.parameter_entries p).map Prod.fst ↔ p.max_value ≠ "") ∧
      ("default" ∈ (JSONGenerator.parameter_entries p).map Prod.fst ↔ p.default_value ≠ "") ∧
      ("description" ∈ (JSONGenerator.parameter_entries p).map Prod.fst ↔
        p.description ≠ "")) := by
  constructor
  · intro p h1 h2 h3 h4 h5 h6 h7
    rcases h2 with h2 | h2 <;>
      simp [JSONGenerator.parameter_to_json, JSONGenerator.parameter_entries,
        h1, h2, h3, h4, h5, h6, h7]
  · intro p
    refine ⟨?_, ?_, ?_, ?_, ?_, ?_, ?_⟩ <;>
      simp [JSONGenerator.parameter_entries, List.map_append, List.mem_append,
        mem_fst_ite]

/-- C7 (witness): a parameter with empty type, default multiplicity "1" and
no other attributes projects to the empty object, and a boolean parameter's
projection carries the "type" key. -/
theorem C7_witness :
    JSONGenerator.parameter_to_json { name := "X", param_type := "", multiplicity := "1" } =
      JValue.obj [] ∧
    ("type" ∈ (JSONGenerator.parameter_entries
      { name := "X", param_type := "BOOLEAN", multiplicity := "1" }).map Prod.fst ↔
      ("BOOLEAN" : String) ≠ "") :=
  ⟨C7_emptiness_rule.1 _ rfl (Or.inr rfl) rfl rfl rfl rfl rfl,
   (C7_emptiness_rule.2 { name := "X", param_type := "BOOLEAN", multiplicity := "1" }).1⟩

/-- C8: a parameter element whose localised tag is absent from the parameter
tag table yields kind UNKNOWN, a reference element absent from the reference
tag table yields kind REFERENCE, and every child element of a located
parameter or reference grouping produces exactly one node. -/
theorem C8_unknown_tags :
    (∀ e : XElem, local_tag e.tag ∉ type_mapping.map Prod.fst →
      (parse_parameter e).param_type = "UNKNOWN") ∧
    (∀ e : XElem, local_tag e.tag ∉ ref_type_mapping.map Prod.fst →
      (parse_reference e).ref_type = "REFERENCE") ∧
    (∀ (e pe : XElem), findChild e (arNS "PARAMETERS") = some pe →
      (parse_container e).parameters = pe.children.map parse_parameter) ∧
    (∀ (e re : XElem), findChild e (arNS "REFERENCES") = some re →
      (parse_container e).references = re.children.map parse_reference) := by
  refine ⟨?_, ?_, ?_, ?_⟩
  · intro e h
    simp [parse_parameter, lookup_eq_none_of_not_mem _ h]
  · intro e h
    simp [parse_reference, lookup_eq_none_of_not_mem _ h]
  · intro e pe h
    cases e with
    | mk t a x cs =>
      rw [parse_container]
      simp only [Container.parameters]
      rw [h]
  · intro e re h
    cases e with
    | mk t a x cs =>
      rw [parse_container]
      simp only [Container.references]
      rw [h]

/-- C8 (witness): a parameter and a reference with an unrecognised tag get
the fallback kinds, and a parameter grouping with two (unrecognised)
children yields exactly two parameter nodes. -/
theorem C8_witness :
    (parse_parameter (elemC "X-UNKNOWN-TAG" [])).param_type = "UNKNOWN" ∧
    (parse_reference (elemC "X-UNKNOWN-TAG" [])).ref_type = "REFERENCE" ∧
    (parse_container (elemC "C" [elemC (arNS "PARAMETERS")
      [elemC "P1" [], elemC "P2" []]])).parameters.length = 2 := by
  refine ⟨C8_unknown_tags.1 _ (by decide), C8_unknown_tags.2.1 _ (by decide), ?_⟩
  rw [C8_unknown_tags.2.2.1 (elemC "C" [elemC (arNS "PARAMETERS")
    [elemC "P1" [], elemC "P2" []]]) (elemC (arNS "PARAMETERS")
    [elemC "P1" [], elemC "P2" []]) rfl]
  rfl

/-- Count of recognized container-definition child elements under the first
sub-containers grouping and the first direct containers grouping of the
root, combined (the count the spec's property refers to). -/
def recognized_container_count (md : XElem) : Nat :=
  (match findChild md (arNS "SUB-CONTAINERS") with
    | some se => (childrenTagged se (arNS "ECUC-PARAM-CONF-CONTAINER-DEF")).length
    | none => 0) +
  (match findChild md (arNS "CONTAINERS") with
    | some ce => (childrenTagged ce (arNS "ECUC-PARAM-CONF-CONTAINER-DEF")).length
    | none => 0)

/-- C4: for every well-formed document whose root search succeeds, conversion
never fails; the Module's container sequence is the union of the recognized
children of the sub-containers grouping (first, in document order) and of
the direct containers grouping (second, in document order); and the
container count equals the combined recognized-children count. -/
theorem C4_union_and_count :
    ∀ (root : XElem) (path : String) (md : XElem), find_root root = some md →
      parse_arxml_file (.ok root) path = .ok (build_module md) ∧
      (build_module md).containers =
        (match findChild md (arNS "SUB-CONTAINERS") with
          | some se =>
            (childrenTagged se (arNS "ECUC-PARAM-CONF-CONTAINER-DEF")).map parse_container
          | none => []) ++
        (match findChild md (arNS "CONTAINERS") with
          | some ce =>
            (childrenTagged ce (arNS "ECUC-PARAM-CONF-CONTAINER-DEF")).map parse_container
          | none => []) ∧
      (build_module md).containers.length = recognized_container_count md := by
  intro root path md h
  refine ⟨by rw [parse_arxml_file, h], rfl, ?_⟩
  cases hs : findChild md (arNS "SUB-CONTAINERS") <;>
    cases hc : findChild md (arNS "CONTAINERS") <;>
      simp [build_module, recognized_container_count, hs, hc]

/-- C4 (witness): the union and count at the concrete scenario document. -/
theorem C4_witness :
    parse_arxml_file (.ok docCom) "f.arxml" = .ok (build_module docComModuleDef) ∧
    (build_module docComModuleDef).containers.length =
      recognized_container_count docComModuleDef := by
  have h := C4_union_and_count docCom "f.arxml" docComModuleDef rfl
  exact ⟨h.1, h.2.2⟩

/-- C9: per-node leniency: `_get_text` yields the default whenever the parent
is absent, no element matches the path, or the matched element has absent or
empty text; container, reference and parameter elements with no children at
all still produce nodes whose fields are the empty string (multiplicity gets
the documented default display "1"); and for every document with a
recognized root the whole-tree walk returns a Module, never a failure. -/
theorem C9_leniency :
    (∀ (q : XPathQ) (dflt : String), get_text none q dflt = dflt) ∧
    (∀ (p : XElem) (q : XPathQ) (dflt : String), findPath p q = none →
      get_text (some p) q dflt = dflt) ∧
    (∀ (p e : XElem) (q : XPathQ) (dflt : String), findPath p q = some e →
      e.text = none → get_text (some p) q dflt = dflt) ∧
    (∀ (t : String) (a : List (String × String)) (x : Option String),
      parse_container (XElem.mk t a x []) =
        Container.mk "" "CONTAINER" "1" "" [] [] [] []) ∧
    (∀ (t : String) (a : List (String × String)) (x : Option String),
      parse_parameter (XElem.mk t a x []) =
        { name := "", param_type := (type_mapping.lookup (local_tag t)).getD "UNKNOWN",
          multiplicity := "1" }) ∧
    (∀ (t : String) (a : List (String × String)) (x : Option String),
      parse_reference (XElem.mk t a x []) =
        { name := "", ref_type := (ref_type_mapping.lookup (local_tag t)).getD "REFERENCE",
          multiplicity := "1" }) ∧
    (∀ (root : XElem) (path : String) (md : XElem), find_root root = some md →
      ∃ m : Module, parse_arxml_file (.ok root) path = Except.ok m) := by
  refine ⟨fun q dflt => rfl, ?_, ?_, fun t a x => rfl, fun t a x => rfl,
    fun t a x => rfl, ?_⟩
  · intro p q dflt h
    simp [get_text, h]
  · intro p e q dflt h1 h2
    simp [get_text, h1, h2]
  · intro root path md h
    exact ⟨build_module md, by rw [parse_arxml_file, h]⟩

/-- C9 (witness): the leniency branches at concrete inputs: a missing path
yields the default, a childless container element parses to the
empty-fields node, and the scenario document's walk returns a Module. -/
theorem C9_witness :
    get_text none (XPathQ.child (arNS "SHORT-NAME")) "" = "" ∧
    parse_container (XElem.mk "X" [] none []) =
      Container.mk "" "CONTAINER" "1" "" [] [] [] [] ∧
    (∃ m : Module, parse_arxml_file (.ok docCom) "f.arxml" = Except.ok m) :=
  ⟨C9_leniency.1 _ _, C9_leniency.2.2.2.1 "X" [] none,
   C9_leniency.2.2.2.2.2.2 docCom "f.arxml" docComModuleDef rfl⟩

/-- C5 (counterexample): the sole conversion entry point applied to the
scenario document returns the compact projection, whose only top-level key is
the module name "Com" — not the descriptive object with keys name, type,
description, category, version, containers; so the descriptive projection is
not available as a conversion entry point (the second JSONGenerator class
definition shadows the first). -/
theorem C5_counterexample :
    (convert_paramdef_to_json (.ok docCom) "f.arxml").toOption.map JValue.topKeys =
      some ["Com"] ∧
    (JSONGeneratorDescriptive.generate_json (build_module docComModuleDef)).topKeys =
      ["name", "type", "description", "category", "version", "containers"] ∧
    (["Com"] : List String) ≠
      ["name", "type", "description", "category", "version", "containers"] :=
  ⟨rfl, rfl, by decide⟩

/-- C5 (amended): the descriptive projection — the first `JSONGenerator`
class, which the second shadows, so it is reachable from no conversion entry
point — is an object with keys `name`, `type` (the literal "MODULE"),
`description`, `category`, `version` and `containers`, where element i of
`containers` is the projection of container i in document order, and each
container object carries `name`, `type`, `multiplicity`, `description`,
derived `lowerMultiplicity` and `upperMultiplicity`, and the arrays
`parameters`, `references`, `sub_containers`, recursively; the sole
conversion entry point instead returns the compact projection. -/
theorem C5_descriptive_shape :
    (∀ m : Module, JSONGeneratorDescriptive.generate_json m =
      JValue.obj [("name", .str m.name), ("type", .str "MODULE"),
        ("description", .str m.description), ("category", .str m.category),
        ("version", .str m.version),
        ("containers",
          .arr (m.containers.map JSONGeneratorDescriptive.container_to_dict))]) ∧
    (∀ (m : Module) (i : Nat) (h : i < m.containers.length),
      (m.containers.map JSONGeneratorDescriptive.container_to_dict).get
        ⟨i, by simpa using h⟩ =
        JSONGeneratorDescriptive.container_to_dict (m.containers.get ⟨i, h⟩)) ∧
    (∀ c : Container, (JSONGeneratorDescriptive.container_to_dict c).topKeys =
      ["name", "type", "multiplicity", "description", "lowerMultiplicity",
       "upperMultiplicity", "parameters", "references", "sub_containers"]) ∧
    (∀ c : Container, JSONGeneratorDescriptive.container_to_dict c =
      JValue.obj [("name", .str c.name), ("type", .str c.container_type),
        ("multiplicity", .str c.multiplicity), ("description", .str c.description),
        ("lowerMultiplicity", .int (extract_lower_multiplicity c.multiplicity)),
        ("upperMultiplicity", .int (extract_upper_multiplicity c.multiplicity)),
        ("parameters",
          .arr (c.parameters.map JSONGeneratorDescriptive.parameter_to_dict)),
        ("references",
          .arr (c.references.map JSONGeneratorDescriptive.reference_to_dict)),
        ("sub_containers",
          .arr (JSONGeneratorDescriptive.container_to_dict_list c.sub_containers))]) ∧
    (∀ (doc : Except String XElem) (path : String) (m : Module),
      parse_arxml_file doc path = .ok m →
      convert_paramdef_to_json doc path = .ok (JSONGenerator.generate_json m)) := by
  refine ⟨fun m => rfl, ?_, ?_, ?_, ?_⟩
  · intro m i h
    simp [List.get_eq_getElem, List.getElem_map]
  · intro c
    cases c
    rfl
  · intro c
    cases c
    rfl
  · intro doc path m h
    simp only [convert_paramdef_to_json]
    rw [h]

/-- C5 (witness): the indexing and entry-point branches at the concrete
scenario document and its parsed module. -/
theorem C5_witness :
    ((build_module docComModuleDef).containers.map
      JSONGeneratorDescriptive.container_to_dict).get ⟨0, by decide⟩ =
      JSONGeneratorDescriptive.container_to_dict
        ((build_module docComModuleDef).containers.get ⟨0, by decide⟩) ∧
    convert_paramdef_to_json (.ok docCom) "f.arxml" =
      .ok (JSONGenerator.generate_json (build_module docComModuleDef)) :=
  ⟨C5_descriptive_shape.2.1 (build_module docComModuleDef) 0 (by decide),
   C5_descriptive_shape.2.2.2.2 (.ok docCom) "f.arxml" (build_module docComModuleDef) rfl⟩

/-! Compact-tree line accounting (for the compact rendering claim) -/

mutual
/-- Number of lines the compact rendering devotes to a container: its own
line, an optional description line, one line per parameter, one line per
reference, and the lines of its sub-containers, recursively. -/
def compact_line_count : Container → Nat
  | .mk _ _ _ desc _ ps rs ss =>
    1 + (if desc ≠ "" then 1 else 0) + ps.length + rs.length + compact_line_count_list ss

/-- Summed compact line count of a container list. -/
def compact_line_count_list : List Container → Nat
  | [] => 0
  | c :: cs => compact_line_count c + compact_line_count_list cs
end

theorem add_parameter_lines_compact (p : Parameter) (pfx : String) (l : Bool) :
    SimpleTreeGen.add_parameter_lines p pfx l false =
      [pfx ++ (if l then SimpleTreeGen.glyphLast else SimpleTreeGen.glyphMid) ++
        SimpleTreeGen.glyphParam ++
        (p.name ++ " [" ++ p.param_type ++ "] " ++ p.multiplicity)] := rfl

theorem add_reference_lines_compact (r : Reference) (pfx : String) (l : Bool) :
    SimpleTreeGen.add_reference_lines r pfx l false =
      [pfx ++ (if l then SimpleTreeGen.glyphLast else SimpleTreeGen.glyphMid) ++
        SimpleTreeGen.glyphRef ++ r.name ++ " [" ++ r.ref_type ++ "] " ++
        r.multiplicity] := rfl

theorem param_lines_flatten_length (npfx : String) (total : Nat) :
    ∀ (n : Nat) (ps : List Parameter),
      ((((ps.enumFrom n)).map (fun ip => SimpleTreeGen.add_parameter_lines ip.2 npfx
        (ip.1 + 1 == total) false)).flatten).length = ps.length
  | _, [] => rfl
  | n, p :: ps => by
    show ((SimpleTreeGen.add_parameter_lines p npfx (n + 1 == total) false) ::
      (((ps.enumFrom (n + 1))).map (fun ip => SimpleTreeGen.add_parameter_lines ip.2 npfx
        (ip.1 + 1 == total) false))).flatten.length = ps.length + 1
    rw [List.flatten_cons, List.length_append, add_parameter_lines_compact,
      param_lines_flatten_length npfx total (n + 1) ps]
    simp only [List.length_singleton]
    omega

theorem ref_lines_flatten_length (npfx : String) (base total : Nat) :
    ∀ (n : Nat) (rs : List Reference),
      ((((rs.enumFrom n)).map (fun ir => SimpleTreeGen.add_reference_lines ir.2 npfx
        (base + ir.1 + 1 == total) false)).flatten).length = rs.length
  | _, [] => rfl
  | n, r :: rs => by
    show ((SimpleTreeGen.add_reference_lines r npfx (base + n + 1 == total) false) ::
      (((rs.enumFrom (n + 1))).map (fun ir => SimpleTreeGen.add_reference_lines ir.2 npfx
        (base + ir.1 + 1 == total) false))).flatten.length = rs.length + 1
    rw [List.flatten_cons, List.length_append, add_reference_lines_compact,
      ref_lines_flatten_length npfx base total (n + 1) rs]
    simp only [List.length_singleton]
    omega

mutual
theorem add_container_lines_length_compact :
    ∀ (c : Container) (pfx : String) (l : Bool),
      (SimpleTreeGen.add_container_lines c pfx l false).length = compact_line_count c
  | .mk name ty mult desc ccs ps rs ss, pfx, l => by
    rw [SimpleTreeGen.add_container_lines, compact_line_count]
    simp only [List.enum, List.length_cons, List.length_append]
    rw [param_lines_flatten_length
        (pfx ++ (if l then "    " else SimpleTreeGen.glyphBar))
        (ps.length + rs.length + ss.length) 0 ps,
      ref_lines_flatten_length
        (pfx ++ (if l then "    " else SimpleTreeGen.glyphBar))
        ps.length (ps.length + rs.length + ss.length) 0 rs,
      add_container_list_length_compact ss
        (pfx ++ (if l then "    " else SimpleTreeGen.glyphBar))
        (ps.length + rs.length) (ps.length + rs.length + ss.length)]
    by_cases hd : desc = "" <;> simp [hd] <;> omega

theorem add_container_list_length_compact :
    ∀ (ss : List Container) (pfx : String) (idx total : Nat),
      (SimpleTreeGen.add_container_list ss pfx false idx total).length =
        compact_line_count_list ss
  | [], _, _, _ => rfl
  | c :: cs, pfx, idx, total => by
    rw [SimpleTreeGen.add_container_list, compact_line_count_list, List.length_append,
      add_container_lines_length_compact c pfx (idx + 1 == total),
      add_container_list_length_compact cs pfx (idx + 1) total]
end

theorem container_lines_flatten_length (len : Nat) :
    ∀ (n : Nat) (cs : List Container),
      (((cs.enumFrom n).map (fun ic => SimpleTreeGen.add_container_lines ic.2 ""
        (ic.1 == len - 1) false)).flatten).length = compact_line_count_list cs
  | _, [] => rfl
  | n, c :: cs => by
    show ((SimpleTreeGen.add_container_lines c "" (n == len - 1) false) ::
      ((cs.enumFrom (n + 1)).map (fun ic => SimpleTreeGen.add_container_lines ic.2 ""
        (ic.1 == len - 1) false))).flatten.length = _
    rw [List.flatten_cons, List.length_append,
      add_container_lines_length_compact c "" (n == len - 1),
      container_lines_flatten_length len (n + 1) cs, compact_line_count_list]

theorem simple_lines_length (m : Module) :
    (SimpleTreeGen.simple_lines m).length = 2 + compact_line_count_list m.containers := by
  rw [SimpleTreeGen.simple_lines]
  simp only [List.enum, List.length_cons]
  rw [container_lines_flatten_length m.containers.length 0 m.containers]
  omega

/-- The module of the compact-rendering counterexample: one container with
one parameter and one reference. -/
def mC3 : Module :=
  { name := "M", description := "d",
    containers := [Container.mk "C" "CONTAINER" "1" "" []
      [{ name := "P", param_type := "BOOLEAN", multiplicity := "1" }]
      [{ name := "R", ref_type := "REFERENCE", multiplicity := "1" }] []] }

/-- C3 (counterexample): on a module with one container holding one parameter
and one reference, the compact tree has five lines, not the three the claim
allows (header, description, container), and lines 4 and 5 are the expanded
parameter and reference lines. -/
theorem C3_counterexample :
    (SimpleTreeGen.simple_lines mC3).length = 5 ∧
    containsSeq (String.data "P [BOOLEAN]")
      (String.data ((SimpleTreeGen.simple_lines mC3).getD 3 "")) = true ∧
    containsSeq (String.data "R [REFERENCE]")
      (String.data ((SimpleTreeGen.simple_lines mC3).getD 4 "")) = true :=
  ⟨rfl, by decide, by decide⟩

/-- C3 (amended): the compact form consists of the module header line, the
description line, and one recursive pass over containers — but in that pass
parameters and references ARE each expanded into exactly one
name/kind/multiplicity line (with all their details suppressed), containers
contribute their own line plus an optional description line, and only
containers recurse; accordingly the total line count is 2 plus, per
container recursively, 1 + (1 if its description is non-empty) + its
parameter count + its reference count. -/
theorem C3_compact_form :
    (∀ m : Module, SimpleTreeGen.simple_lines m =
      (m.name ++ " [MODULE]") :: (SimpleTreeGen.glyphDesc ++ m.description) ::
        (m.containers.enum.map (fun ic =>
          SimpleTreeGen.add_container_lines ic.2 "" (ic.1 == m.containers.length - 1)
            false)).flatten) ∧
    (∀ (p : Parameter) (pfx : String) (l : Bool),
      SimpleTreeGen.add_parameter_lines p pfx l false =
        [pfx ++ (if l then SimpleTreeGen.glyphLast else SimpleTreeGen.glyphMid) ++
          SimpleTreeGen.glyphParam ++
          (p.name ++ " [" ++ p.param_type ++ "] " ++ p.multiplicity)]) ∧
    (∀ (r : Reference) (pfx : String) (l : Bool),
      SimpleTreeGen.add_reference_lines r pfx l false =
        [pfx ++ (if l then SimpleTreeGen.glyphLast else SimpleTreeGen.glyphMid) ++
          SimpleTreeGen.glyphRef ++ r.name ++ " [" ++ r.ref_type ++ "] " ++
          r.multiplicity]) ∧
    (∀ (c : Container) (pfx : String) (l : Bool),
      (SimpleTreeGen.add_container_lines c pfx l false).length = compact_line_count c) ∧
    (∀ m : Module, (SimpleTreeGen.simple_lines m).length =
      2 + compact_line_count_list m.containers) :=
  ⟨fun m => rfl, add_parameter_lines_compact, add_reference_lines_compact,
   add_container_lines_length_compact, simple_lines_length⟩

/-! The closed parameter-kind set (implicit invariant) -/

/-- The closed set of parameter kinds: the range of the tag table plus the
UNKNOWN fallback. -/
def param_kinds : List String :=
  ["BOOLEAN", "INTEGER", "FLOAT", "STRING", "ENUMERATION", "FUNCTION_NAME", "UNKNOWN"]

mutual
/-- A container together with all containers reachable through its
sub-container sequence. -/
def allContainers : Container → List Container
  | .mk n t m d cc ps rs ss => .mk n t m d cc ps rs ss :: allContainersList ss

/-- All containers reachable from a container list. -/
def allContainersList : List Container → List Container
  | [] => []
  | c :: cs => allContainers c ++ allContainersList cs
end

theorem parse_parameter_kind (e : XElem) :
    (parse_parameter e).param_type ∈ param_kinds := by
  simp only [parse_parameter]
  exact lookup_getD_mem (by decide) type_mapping (by decide) _

theorem allContainersList_append :
    ∀ l1 l2 : List Container,
      allContainersList (l1 ++ l2) = allContainersList l1 ++ allContainersList l2
  | [], _ => rfl
  | c :: cs, l2 => by
    rw [List.cons_append, allContainersList, allContainersList,
      allContainersList_append cs l2, List.append_assoc]

theorem mem_allContainers_withType {x : Container} {ty : String} {c : Container}
    (h : c ∈ allContainers (x.withType ty)) :
    ∀ p ∈ c.parameters, ∃ y ∈ allContainers x, p ∈ y.parameters := by
  cases x with
  | mk n t m d cc ps rs ss =>
    rw [Container.withType, allContainers] at h
    rcases List.mem_cons.mp h with rfl | h2
    · intro p hp
      exact ⟨.mk n t m d cc ps rs ss,
        by rw [allContainers]; exact List.mem_cons_self _ _, hp⟩
    · intro p hp
      exact ⟨c, by rw [allContainers]; exact List.mem_cons_of_mem _ h2, hp⟩

mutual
theorem kinds_in_container : ∀ (e : XElem), ∀ c ∈ allContainers (parse_container e),
    ∀ p ∈ c.parameters, p.param_type ∈ param_kinds
  | .mk t a x cs, c, hc, p, hp => by
    rw [parse_container, allContainers] at hc
    rcases List.mem_cons.mp hc with rfl | h2
    · simp only [Container.parameters] at hp
      cases hfc : findChild (XElem.mk t a x cs) (arNS "PARAMETERS") with
      | none => rw [hfc] at hp; simp at hp
      | some pe =>
        rw [hfc] at hp
        rcases List.mem_map.mp hp with ⟨q, hq, rfl⟩
        exact parse_parameter_kind q
    · rw [allContainersList_append] at h2
      rcases List.mem_append.mp h2 with h3 | h3
      · exact kinds_in_group (arNS "SUB-CONTAINERS") "SUB_CONTAINER" cs c h3 p hp
      · exact kinds_in_group (arNS "CHOICES") "CHOICE_CONTAINER" cs c h3 p hp

theorem kinds_in_group : ∀ (tagName kind : String) (cs : List XElem),
    ∀ c ∈ allContainersList (parse_group tagName kind cs),
    ∀ p ∈ c.parameters, p.param_type ∈ param_kinds
  | _, _, [], c, hc, _, _ => by rw [parse_group, allContainersList] at hc; simp at hc
  | tagName, kind, XElem.mk t a x gcs :: rest, c, hc, p, hp => by
    rw [parse_group] at hc
    by_cases ht : (t == tagName) = true
    · rw [if_pos ht] at hc
      exact kinds_in_group_list kind gcs c hc p hp
    · rw [if_neg ht] at hc
      exact kinds_in_group tagName kind rest c hc p hp

theorem kinds_in_group_list : ∀ (kind : String) (gcs : List XElem),
    ∀ c ∈ allContainersList (parse_group_list kind gcs),
    ∀ p ∈ c.parameters, p.param_type ∈ param_kinds
  | _, [], c, hc, _, _ => by rw [parse_group_list, allContainersList] at hc; simp at hc
  | kind, g :: gcs, c, hc, p, hp => by
    rw [parse_group_list, allContainersList] at hc
    rcases List.mem_append.mp hc with h1 | h1
    · rcases mem_allContainers_withType h1 p hp with ⟨y, hy, hpy⟩
      exact kinds_in_container g y hy p hpy
    · exact kinds_in_group_list kind gcs c h1 p hp
end

theorem kinds_in_map_parse :
    ∀ (l : List XElem), ∀ c ∈ allContainersList (l.map parse_container),
      ∀ p ∈ c.parameters, p.param_type ∈ param_kinds
  | [], c, hc, _, _ => by simp [allContainersList] at hc
  | e :: l, c, hc, p, hp => by
    rw [List.map_cons, allContainersList] at hc
    rcases List.mem_append.mp hc with h1 | h1
    · exact kinds_in_container e c h1 p hp
    · exact kinds_in_map_parse l c h1 p hp

theorem kinds_in_build_module (md : XElem) :
    ∀ c ∈ allContainersList (build_module md).containers,
      ∀ p ∈ c.parameters, p.param_type ∈ param_kinds := by
  intro c hc p hp
  simp only [build_module] at hc
  rw [allContainersList_append] at hc
  rcases List.mem_append.mp hc with h1 | h1
  · cases hfc : findChild md (arNS "SUB-CONTAINERS") with
    | none => rw [hfc] at h1; simp [allContainersList] at h1
    | some se =>
      rw [hfc] at h1
      exact kinds_in_map_parse _ c h1 p hp
  · cases hfc : findChild md (arNS "CONTAINERS") with
    | none => rw [hfc] at h1; simp [allContainersList] at h1
    | some ce =>
      rw [hfc] at h1
      exact kinds_in_map_parse _ c h1 p hp

/-- C10: every parameter of every container reachable in a parser-produced
Module has a kind drawn from the closed set; consequently its compact
projection always carries the "type" key and is never the empty object, so
the emptiness fallback is unreachable for parser-produced parameters. -/
theorem C10_closed_kind_set :
    ∀ (doc : Except String XElem) (path : String) (m : Module),
      parse_arxml_file doc path = .ok m →
      ∀ c ∈ allContainersList m.containers, ∀ p ∈ c.parameters,
        p.param_type ∈ param_kinds ∧
        "type" ∈ (JSONGenerator.parameter_entries p).map Prod.fst ∧
        JSONGenerator.parameter_to_json p ≠ JValue.obj [] := by
  intro doc path m h c hc p hp
  match doc with
  | .error msg => exact absurd h (by simp [parse_arxml_file])
  | .ok root =>
    cases hr : find_root root with
    | none =>
      rw [parse_arxml_file, hr] at h
      exact absurd h (by simp)
    | some md =>
      rw [parse_arxml_file, hr] at h
      have hm : m = build_module md := (Except.ok.inj h).symm
      subst hm
      have hk := kinds_in_build_module md c hc p hp
      have hne : p.param_type ≠ "" := by
        intro he
        rw [he] at hk
        exact absurd hk (by decide)
      have hmem : "type" ∈ (JSONGenerator.parameter_entries p).map Prod.fst := by
        simp [JSONGenerator.parameter_entries, List.map_append, mem_fst_ite, hne]
      refine ⟨hk, hmem, ?_⟩
      intro hobj
      rw [JSONGenerator.parameter_to_json] at hobj
      injection hobj with hent
      rw [hent] at hmem
      simp at hmem

/-- The parameter node the scenario document parses to. -/
def comParam : Parameter :=
  { name := "ComMainFunctionPeriod", param_type := "BOOLEAN", multiplicity := "1",
    default_value := "0.01" }

/-- The container node the scenario document parses to. -/
def comContainer : Container :=
  Container.mk "ComConfig" "CONTAINER" "1" "" [] [comParam] [] []

/-- C10 (witness): the invariant at the concrete scenario document's parsed
parameter. -/
theorem C10_witness :
    comParam.param_type ∈ param_kinds ∧
    "type" ∈ (JSONGenerator.parameter_entries comParam).map Prod.fst ∧
    JSONGenerator.parameter_to_json comParam ≠ JValue.obj [] :=
  C10_closed_kind_set (.ok docCom) "f.arxml" (build_module docComModuleDef) rfl
    comContainer (by decide) comParam (by decide)

end TreeGen
